import Mathlib

/-!
Verification of the ev-charger controller (src/ev-charger.c).

The development shallowly embeds the parts of the program the claims are
about: the meter-response parsing in `get_meter_reading`, the gateway
reboot sequence `reboot_gateway`, the switch actuation `switch_charger`,
and one iteration of the main control loop (`cycle`).  C doubles are
modelled as rationals (all values involved are exactly representable at
the scales the meter produces), machine strings as `List Char`, and the
program's observable side effects (gateway power toggles, sleeps, mail
notifications) as an explicit event list.  A `none` result of
`get_meter_reading` marks an execution with no defined result (the NULL
pointer arithmetic reachable in the source when a marker is absent).
-/

/-- The `Modes of EV charger` enumeration of the source, in declaration
order (OFF = 0, ON = 1, ...). -/
inductive EvMode where
  | OFF
  | ON
  | ON_ERROR
  | OFF_ERROR
  | ON_VC
  | ON_VC_ERROR
  | OFF_CURRENT
  | OFF_VALUE
  | OFF_STARTUP
  | REBOOT_GATEWAY_TIMEOUT
  | REBOOT_GATEWAY_UNAVAILABLE
deriving DecidableEq

/-- Integer code of each enumerator, as the C enum assigns them. -/
def EvMode.code : EvMode → Int
  | .OFF => 0
  | .ON => 1
  | .ON_ERROR => 2
  | .OFF_ERROR => 3
  | .ON_VC => 4
  | .ON_VC_ERROR => 5
  | .OFF_CURRENT => 6
  | .OFF_VALUE => 7
  | .OFF_STARTUP => 8
  | .REBOOT_GATEWAY_TIMEOUT => 9
  | .REBOOT_GATEWAY_UNAVAILABLE => 10

/-- Observable side effects of the device-facing code: gateway power
toggles, `sleep(n)` calls, and `sendmail(event)` calls. -/
inductive Ev where
  | gwOff
  | gwOn
  | sleepSec (n : Nat)
  | mail (m : EvMode)
deriving DecidableEq

/-- The `#define` configuration constants of the source, kept as
parameters so that the universally quantified claims about thresholds,
load draw and window hours can be stated. -/
structure Config where
  sleep_seconds : Nat
  value_charge_start_hour : Int
  value_charge_end_hour : Int
  ev_charging_current : ℚ
  switching_threshold : ℚ

/-- The concrete values of the source's `#define`s: 120 s sleep, window
23:00 to 07:00, 1.4 kW charge current, 0 kW threshold. -/
def defaultConfig : Config :=
  ⟨120, 23, 7, 7 / 5, 0⟩

/-- Result of one `get_meter_reading` call: the returned flag
(1 = success, 0 = failure), the global `actual_demand` after the call,
and the side effects performed inside the call. -/
structure MeterOutcome where
  success : Bool
  actual_demand : ℚ
  events : List Ev
deriving DecidableEq

/-- What the transport layer hands to `get_meter_reading`: a curl-level
failure (no handle or `curl_easy_perform` error), a NULL `parse_buffer`
(write callback never ran), or a response body. -/
inductive Transport where
  | curlFail
  | noBody
  | body (buf : List Char)

/-- `matchesAt pat s` is true when `pat` occurs at the very start of
`s` (the prefix comparison `strstr` performs at each position). -/
def matchesAt : List Char → List Char → Bool
  | [], _ => true
  | _ :: _, [] => false
  | p :: ps, c :: cs => p == c && matchesAt ps cs

/-- `afterSub pat s` models `strstr(s, pat) + strlen(pat)`: the suffix
of `s` after the first occurrence of `pat`, or `none` when `strstr`
returns NULL. -/
def afterSub (pat : List Char) : List Char → Option (List Char)
  | [] => if matchesAt pat [] then some [] else none
  | c :: rest =>
      if matchesAt pat (c :: rest) then some (List.drop pat.length (c :: rest))
      else afterSub pat rest

/-- `strstr(s, pat) != NULL`. -/
def containsSub (pat s : List Char) : Bool :=
  (afterSub pat s).isSome

/-- The token the source copies out with `strncpy`: everything after the
first occurrence of `marker` up to the next `'<'` (found by `strchr`).
`none` when either lookup fails, in which case the source performs
pointer arithmetic on NULL and has no defined result. -/
def extract_token (marker buf : List Char) : Option (List Char) :=
  match afterSub marker buf with
  | none => none
  | some rest =>
      if '<' ∈ rest then some (rest.takeWhile (fun c => c != '<')) else none

def demandMarker : List Char := "<Demand>".toList

def multiplierMarker : List Char := "<Multiplier>".toList

def divisorMarker : List Char := "<Divisor>".toList

def timeoutSig : List Char := "Request Timeout".toList

def unavailableSig : List Char := "Service Unavailable".toList

/-- Hexadecimal digit value, as `strtod` reads mantissa digits. -/
def hexVal (c : Char) : Option Nat :=
  if '0' ≤ c ∧ c ≤ '9' then some (c.toNat - '0'.toNat)
  else if 'a' ≤ c ∧ c ≤ 'f' then some (c.toNat - 'a'.toNat + 10)
  else if 'A' ≤ c ∧ c ≤ 'F' then some (c.toNat - 'A'.toNat + 10)
  else none

def decVal (c : Char) : Option Nat :=
  if '0' ≤ c ∧ c ≤ '9' then some (c.toNat - '0'.toNat) else none

/-- Value of the longest hex-digit run at the front of the list. -/
def parseHex : Nat → List Char → Nat
  | acc, [] => acc
  | acc, c :: rest =>
      match hexVal c with
      | some v => parseHex (acc * 16 + v) rest
      | none => acc

/-- Value of the longest decimal-digit run at the front of the list. -/
def parseDec : Nat → List Char → Nat
  | acc, [] => acc
  | acc, c :: rest =>
      match decVal c with
      | some v => parseDec (acc * 10 + v) rest
      | none => acc

/-- C99 `atof` restricted to the integer tokens this meter produces:
a `0x` prefix selects hexadecimal (C99 `strtod` hex-float syntax, which
is how `atof("0x001738")` yields 5944 in the source), anything else is
read as a decimal integer prefix.  All such values are below 2^53, so
the double result is exact and the rational model is faithful. -/
def atofQ : List Char → ℚ
  | '0' :: 'x' :: rest => (parseHex 0 rest : ℚ)
  | s => (parseDec 0 s : ℚ)

def ffffToken : List Char := "0xffffffff".toList

/-- The demand value after the source's export (negative) correction:
`atof` of the token, and if `demand_string[2] == 'f'` the value is
replaced by `(atof("0xffffffff") - demand) * -1`. -/
def demand_correct (dTok : List Char) : ℚ :=
  let demand := atofQ dTok
  if dTok[2]? = some 'f' then
    let demand_tmp := atofQ ffffToken
    (demand_tmp - demand) * (-1)
  else demand

/-- The `reboot_gateway` sequence of the source: gateway off, 5 s wait,
gateway on, 60 s wait. -/
def reboot_gateway : List Ev :=
  [Ev.gwOff, Ev.sleepSec 5, Ev.gwOn, Ev.sleepSec 60]

/-- One `get_meter_reading` call.  `actual_demand` is zeroed on entry
(line 393) and only written again on full success.  A body without the
`<Demand>` marker runs the two independent signature checks, each of
which performs a reboot sequence plus a notification, then returns
failure.  A body with the marker is parsed for the demand, multiplier
and divisor tokens; a missing marker or missing `'<'` delimiter there
is NULL pointer arithmetic in the source, modelled as `none`. -/
def get_meter_reading : Transport → Option MeterOutcome
  | .curlFail => some ⟨false, 0, []⟩
  | .noBody => some ⟨false, 0, []⟩
  | .body buf =>
      if containsSub demandMarker buf then
        match extract_token demandMarker buf, extract_token multiplierMarker buf,
              extract_token divisorMarker buf with
        | some dTok, some mTok, some vTok =>
            let demand := demand_correct dTok
            let multiplier := if atofQ mTok = 0 then 1 else atofQ mTok
            let divisor := if atofQ vTok = 0 then 1 else atofQ vTok
            some ⟨true, demand * multiplier / divisor, []⟩
        | _, _, _ => none
      else
        some ⟨false, 0,
          (if containsSub timeoutSig buf then
             reboot_gateway ++ [Ev.mail EvMode.REBOOT_GATEWAY_TIMEOUT] else []) ++
          (if containsSub unavailableSig buf then
             reboot_gateway ++ [Ev.mail EvMode.REBOOT_GATEWAY_UNAVAILABLE] else [])⟩

/-- `switch_charger`: returns the requested mode code on success and -1
when the command could not be performed. -/
def switch_charger (mode : Int) (curlOk : Bool) : Int :=
  if curlOk then mode else -1

/-- The value-charge test of line 1007:
`hour < VALUE_CHARGE_END_HOUR || hour >= VALUE_CHARGE_START_HOUR`. -/
def inValueWindow (cfg : Config) (hour : Int) : Bool :=
  decide (hour < cfg.value_charge_end_hour) ||
  decide (cfg.value_charge_start_hour ≤ hour)

/-- The mail events among a list of side effects. -/
def notifs (es : List Ev) : List EvMode :=
  es.filterMap fun e =>
    match e with
    | .mail m => some m
    | _ => none

/-- Result of one iteration of the main `while (1)` loop: the value of
`current_mode` afterwards, the `sendmail` calls made during the
iteration, and whether the trailing `sleep(SLEEP_SECONDS)` of line 1074
ran (`continue` skips it). -/
structure CycleResult where
  mode : EvMode
  mails : List EvMode
  slept : Bool
deriving DecidableEq

/-- One iteration of the main loop (lines 998-1075), given the stored
mode, the wall-clock hour, the outcome the meter read would produce if
executed, and whether the switch actuation command succeeds.  Inside
the value window the switch is forced on; on actuation failure the
iteration ends with `continue` (no sleep, mode unchanged).  Outside the
window the meter is read first; on read success the threshold test with
the hysteresis asymmetry picks the target, and the matching mail is
selected by comparing the previous mode. -/
def cycle (cfg : Config) (current_mode : EvMode) (hour : Int)
    (meter : MeterOutcome) (actOk : Bool) : CycleResult :=
  if inValueWindow cfg hour then
    if switch_charger (EvMode.code .ON) actOk ≠ EvMode.code .ON then
      ⟨current_mode, [EvMode.ON_VC_ERROR], false⟩
    else
      let entry : List EvMode := if current_mode ≠ EvMode.ON_VC then [EvMode.ON_VC] else []
      ⟨EvMode.ON_VC, entry ++ notifs meter.events, true⟩
  else
    if meter.success then
      if (current_mode = EvMode.ON ∧ meter.actual_demand ≤ cfg.switching_threshold) ∨
         (current_mode = EvMode.OFF ∧
           meter.actual_demand + cfg.ev_charging_current ≤ cfg.switching_threshold) then
        if switch_charger (EvMode.code .ON) actOk = EvMode.code .ON then
          ⟨EvMode.ON,
            notifs meter.events ++ (if current_mode = EvMode.OFF then [EvMode.ON] else []),
            true⟩
        else
          ⟨current_mode, notifs meter.events ++ [EvMode.ON_ERROR], false⟩
      else
        if switch_charger (EvMode.code .OFF) actOk = EvMode.code .OFF then
          ⟨EvMode.OFF,
            notifs meter.events ++
              (if current_mode = EvMode.ON_VC then [EvMode.OFF_VALUE]
               else if current_mode = EvMode.ON then [EvMode.OFF_CURRENT] else []),
            true⟩
        else
          ⟨current_mode, notifs meter.events ++ [EvMode.OFF_ERROR], false⟩
    else
      ⟨current_mode, notifs meter.events, true⟩

/-- The mode `main` starts the loop with (line 971). -/
def initial_mode : EvMode := EvMode.OFF

/-- Environment inputs of one loop iteration. -/
structure CycleInput where
  hour : Int
  meter : MeterOutcome
  actOk : Bool

/-- The stored mode after a sequence of loop iterations. -/
def run (cfg : Config) : EvMode → List CycleInput → EvMode
  | m, [] => m
  | m, i :: rest => run cfg (cycle cfg m i.hour i.meter i.actOk).mode rest

/-- The stored modes that actually occur between cycles. -/
def ModeInv (m : EvMode) : Prop :=
  m = EvMode.OFF ∨ m = EvMode.ON ∨ m = EvMode.ON_VC

/-- A marker-less gateway error body carrying both fault signatures. -/
def bothFaultsResp : List Char :=
  "Request Timeout then Service Unavailable".toList

/-- A marker-less gateway error body carrying only the timeout signature. -/
def timeoutResp : List Char :=
  "HTTP Error: Request Timeout".toList

/-- A marker-less gateway error body carrying only the unavailable signature. -/
def unavailableResp : List Char :=
  "HTTP Error: Service Unavailable".toList

/-- A response whose raw demand token has `'f'` as its third character
(an exporting meter), with multiplier and divisor both 1. -/
def exportResp : List Char :=
  "<Demand>0xfffffe8b</Demand><Multiplier>0x00000001</Multiplier><Divisor>0x00000001</Divisor>".toList

/-- The response of the source's own worked example: raw demand 5944,
multiplier 0 (to be treated as 1), divisor 1000. -/
def scaledResp : List Char :=
  "<Demand>0x001738</Demand><Multiplier>0x00000000</Multiplier><Divisor>0x000003e8</Divisor>".toList

/-- A response with the `<Demand>` marker but no `<Multiplier>` marker:
the source does `strstr(...) + strlen(...)` on a NULL pointer here. -/
def truncatedResp : List Char :=
  "<Demand>0x001738</Demand>".toList

/-- The window test of line 1007, written as the wrapping predicate the
spec states. -/
lemma inValueWindow_eq_true (cfg : Config) (hour : Int) :
    inValueWindow cfg hour = true ↔
      (hour < cfg.value_charge_end_hour ∨ cfg.value_charge_start_hour ≤ hour) := by
  simp [inValueWindow]

/-- A token was extracted, so `strstr` had found the marker. -/
lemma extract_token_contains {marker buf tok : List Char}
    (h : extract_token marker buf = some tok) : containsSub marker buf = true := by
  unfold extract_token at h
  cases hA : afterSub marker buf with
  | none => rw [hA] at h; simp at h
  | some rest => simp [containsSub, hA]

/-- Every defined failure return of `get_meter_reading` leaves
`actual_demand` at the 0 written on entry. -/
lemma get_meter_failure_demand (t : Transport) (m : MeterOutcome)
    (h : get_meter_reading t = some m) (hf : m.success = false) :
    m.actual_demand = 0 := by
  cases t with
  | curlFail => simp [get_meter_reading] at h; rw [← h]
  | noBody => simp [get_meter_reading] at h; rw [← h]
  | body buf =>
      rw [get_meter_reading] at h
      by_cases hc : containsSub demandMarker buf
      · rw [if_pos hc] at h
        rcases hD : extract_token demandMarker buf with _ | dTok <;>
          rcases hM : extract_token multiplierMarker buf with _ | mTok <;>
            rcases hV : extract_token divisorMarker buf with _ | vTok <;>
              rw [hD, hM, hV] at h <;> simp at h
        rw [← h] at hf
        simp at hf
      · rw [if_neg hc] at h
        simp at h
        rw [← h]

/-- A successful `get_meter_reading` performs no side effects: reboots
and notifications happen only on the marker-less failure path. -/
lemma get_meter_success_events (t : Transport) (m : MeterOutcome)
    (h : get_meter_reading t = some m) (hs : m.success = true) :
    m.events = [] := by
  cases t with
  | curlFail => simp [get_meter_reading] at h; rw [← h]
  | noBody => simp [get_meter_reading] at h; rw [← h]
  | body buf =>
      rw [get_meter_reading] at h
      by_cases hc : containsSub demandMarker buf
      · rw [if_pos hc] at h
        rcases hD : extract_token demandMarker buf with _ | dTok <;>
          rcases hM : extract_token multiplierMarker buf with _ | mTok <;>
            rcases hV : extract_token divisorMarker buf with _ | vTok <;>
              rw [hD, hM, hV] at h <;> simp at h
        rw [← h]
      · rw [if_neg hc] at h
        simp at h
        rw [← h] at hs
        simp at hs

/-- One loop iteration keeps the stored mode within `{OFF, ON, ON_VC}`. -/
lemma cycle_mode_inv (cfg : Config) (mode : EvMode) (hour : Int)
    (m : MeterOutcome) (actOk : Bool) (h : ModeInv mode) :
    ModeInv (cycle cfg mode hour m actOk).mode := by
  unfold cycle
  split_ifs <;> simp_all [ModeInv]

/-- Any run from the startup mode stays within `{OFF, ON, ON_VC}`. -/
lemma run_mode_inv (cfg : Config) :
    ∀ (is : List CycleInput) (m : EvMode), ModeInv m → ModeInv (run cfg m is)
  | [], _, h => h
  | i :: rest, m, h =>
      run_mode_inv cfg rest _ (cycle_mode_inv cfg m i.hour i.meter i.actOk h)

lemma atofQ_ffff : atofQ ffffToken = 4294967295 := by
  simp +decide [ffffToken, atofQ, parseHex, hexVal]

/-- C1: Outside the low-cost window, given a successful meter read and a
successful actuation, a stored mode of `On` stays `On` exactly when the
demand is at most the threshold, and a stored mode of `Off` becomes `On`
exactly when demand plus the charger's own draw is at most the
threshold; both comparisons are the source's inclusive `<=`, so a
reading exactly at the threshold turns or keeps the load on. -/
theorem c1_threshold_decision (cfg : Config) (hour : Int) (d : ℚ) (ev : List Ev)
    (hw : inValueWindow cfg hour = false) :
    (cycle cfg EvMode.ON hour ⟨true, d, ev⟩ true).mode =
      (if d ≤ cfg.switching_threshold then EvMode.ON else EvMode.OFF) ∧
    (cycle cfg EvMode.OFF hour ⟨true, d, ev⟩ true).mode =
      (if d + cfg.ev_charging_current ≤ cfg.switching_threshold then EvMode.ON
       else EvMode.OFF) := by
  constructor
  · by_cases hd : d ≤ cfg.switching_threshold <;>
      simp [cycle, hw, switch_charger, EvMode.code, hd]
  · by_cases hd : d + cfg.ev_charging_current ≤ cfg.switching_threshold <;>
      simp [cycle, hw, switch_charger, EvMode.code, hd]

/-- Witness for C1 at the default configuration, noon, -2 kW demand:
both the `On` and the `Off` branch decide `On`. -/
theorem c1_threshold_decision_witness :
    (cycle defaultConfig EvMode.ON 12 ⟨true, -2, []⟩ true).mode = EvMode.ON ∧
    (cycle defaultConfig EvMode.OFF 12 ⟨true, -2, []⟩ true).mode = EvMode.ON := by
  obtain ⟨h1, h2⟩ := c1_threshold_decision defaultConfig 12 (-2) [] (by decide)
  refine ⟨?_, ?_⟩
  · rw [h1]; norm_num [defaultConfig]
  · rw [h2]; norm_num [defaultConfig]

/-- C2: For every hour inside the low-cost window (the wrapping
predicate `hour < end_hour OR hour >= start_hour` of line 1007), a
successful actuation makes the next stored mode `ON_VC` for every
previous mode and every meter outcome; the in-window decision never
looks at the reading. -/
theorem c2_value_window_forces_on (cfg : Config) (mode : EvMode) (hour : Int)
    (m : MeterOutcome)
    (hw : hour < cfg.value_charge_end_hour ∨ cfg.value_charge_start_hour ≤ hour) :
    (cycle cfg mode hour m true).mode = EvMode.ON_VC := by
  have hw' : inValueWindow cfg hour = true := (inValueWindow_eq_true cfg hour).mpr hw
  by_cases hm : mode = EvMode.ON_VC <;>
    simp [cycle, hw', switch_charger, EvMode.code, hm]

/-- Witness for C2 at the default 23:00-07:00 window: both hour 23 (the
`hour >= start` side of the wrap) and hour 5 (the `hour < end` side)
force `ON_VC`, even with a large positive demand reading. -/
theorem c2_value_window_forces_on_witness :
    (cycle defaultConfig EvMode.OFF 23 ⟨true, 100, []⟩ true).mode = EvMode.ON_VC ∧
    (cycle defaultConfig EvMode.ON 5 ⟨false, 0, []⟩ true).mode = EvMode.ON_VC :=
  ⟨c2_value_window_forces_on defaultConfig EvMode.OFF 23 ⟨true, 100, []⟩
      (Or.inr (by decide)),
   c2_value_window_forces_on defaultConfig EvMode.ON 5 ⟨false, 0, []⟩
      (Or.inl (by decide))⟩

/-- C3: In every cycle whose switch actuation is attempted and fails
(inside the window the actuation is always attempted; outside it only
after a successful read), the stored mode after the cycle equals the
stored mode before it and exactly one error notification is fired.
The `events = []` of the read outcome is what successful reads produce
(`get_meter_success_events`). -/
theorem c3_failed_actuation_preserves_mode (cfg : Config) (mode : EvMode)
    (hour : Int) (success : Bool) (d : ℚ)
    (hatt : inValueWindow cfg hour = true ∨ success = true) :
    (cycle cfg mode hour ⟨success, d, []⟩ false).mode = mode ∧
    ((cycle cfg mode hour ⟨success, d, []⟩ false).mails = [EvMode.ON_VC_ERROR] ∨
     (cycle cfg mode hour ⟨success, d, []⟩ false).mails = [EvMode.ON_ERROR] ∨
     (cycle cfg mode hour ⟨success, d, []⟩ false).mails = [EvMode.OFF_ERROR]) := by
  by_cases hw : inValueWindow cfg hour
  · simp [cycle, hw, switch_charger, EvMode.code, notifs]
  · have hs : success = true := hatt.resolve_left hw
    subst hs
    by_cases hc : (mode = EvMode.ON ∧ d ≤ cfg.switching_threshold) ∨
        (mode = EvMode.OFF ∧ d + cfg.ev_charging_current ≤ cfg.switching_threshold) <;>
      simp [cycle, hw, hc, switch_charger, EvMode.code, notifs]

/-- Witness for C3: hour 23 is in the default window, the actuation
fails, the mode stays `OFF` and the value-window error mail fires. -/
theorem c3_failed_actuation_preserves_mode_witness :
    (cycle defaultConfig EvMode.OFF 23 ⟨true, 0, []⟩ false).mode = EvMode.OFF ∧
    ((cycle defaultConfig EvMode.OFF 23 ⟨true, 0, []⟩ false).mails = [EvMode.ON_VC_ERROR] ∨
     (cycle defaultConfig EvMode.OFF 23 ⟨true, 0, []⟩ false).mails = [EvMode.ON_ERROR] ∨
     (cycle defaultConfig EvMode.OFF 23 ⟨true, 0, []⟩ false).mails = [EvMode.OFF_ERROR]) :=
  c3_failed_actuation_preserves_mode defaultConfig EvMode.OFF 23 true 0
    (Or.inl (by decide))

/-- C4: In every successful cycle (read succeeded where needed,
actuation succeeded) starting from a mode the loop can actually hold
(`ModeInv`, established by `run_mode_inv`): if the resulting stored
mode equals the previous one no notification fires, and if it differs
exactly one notification fires, whose template names the cause -
window entry (`ON_VC`), window exit (`OFF_VALUE`), threshold-driven on
(`ON`), or threshold-driven off (`OFF_CURRENT`). -/
theorem c4_notification_matches_transition (cfg : Config) (mode : EvMode)
    (hour : Int) (d : ℚ) (hm : ModeInv mode) :
    (cycle cfg mode hour ⟨true, d, []⟩ true).mails =
      (if (cycle cfg mode hour ⟨true, d, []⟩ true).mode = mode then []
       else
         [if inValueWindow cfg hour then EvMode.ON_VC
          else if mode = EvMode.ON_VC then EvMode.OFF_VALUE
          else if (cycle cfg mode hour ⟨true, d, []⟩ true).mode = EvMode.ON then
            EvMode.ON
          else EvMode.OFF_CURRENT]) := by
  by_cases hw : inValueWindow cfg hour
  · rcases hm with h | h | h <;> subst h <;>
      simp [cycle, hw, switch_charger, EvMode.code, notifs]
  · rcases hm with h | h | h <;> subst h
    · by_cases hd : d + cfg.ev_charging_current ≤ cfg.switching_threshold <;>
        simp [cycle, hw, switch_charger, EvMode.code, notifs, hd]
    · by_cases hd : d ≤ cfg.switching_threshold <;>
        simp [cycle, hw, switch_charger, EvMode.code, notifs, hd]
    · simp [cycle, hw, switch_charger, EvMode.code, notifs]

/-- Witness for C4: from `OFF` at noon with -2 kW demand the mode
changes to `ON` and exactly the threshold-driven-on mail fires. -/
theorem c4_notification_matches_transition_witness :
    (cycle defaultConfig EvMode.OFF 12 ⟨true, -2, []⟩ true).mails = [EvMode.ON] := by
  have h := c4_notification_matches_transition defaultConfig EvMode.OFF 12 (-2)
    (Or.inl rfl)
  rw [h]
  norm_num [cycle, inValueWindow, defaultConfig, switch_charger, EvMode.code, notifs]
  decide

/-- C5: Every defined failure of `get_meter_reading` (curl failure,
NULL `parse_buffer`, or a body without the `<Demand>` marker) returns
with `actual_demand` at the 0 written on entry, and a cycle outside the
value window whose read failed leaves the stored mode unchanged. -/
theorem c5_failed_read_keeps_mode (t : Transport) (m : MeterOutcome)
    (h : get_meter_reading t = some m) (hf : m.success = false) :
    m.actual_demand = 0 ∧
    ∀ (cfg : Config) (mode : EvMode) (hour : Int) (actOk : Bool),
      inValueWindow cfg hour = false →
      (cycle cfg mode hour m actOk).mode = mode := by
  refine ⟨get_meter_failure_demand t m h hf, ?_⟩
  intro cfg mode hour actOk hw
  simp [cycle, hw, hf]

/-- Witness for C5: a transport-level failure yields the zero reading
and leaves an `ON` mode untouched at noon. -/
theorem c5_failed_read_keeps_mode_witness :
    (⟨false, 0, []⟩ : MeterOutcome).actual_demand = 0 ∧
    (cycle defaultConfig EvMode.ON 12 ⟨false, 0, []⟩ true).mode = EvMode.ON := by
  have h := c5_failed_read_keeps_mode Transport.curlFail ⟨false, 0, []⟩ rfl rfl
  exact ⟨h.1, h.2 defaultConfig EvMode.ON 12 true (by decide)⟩

/-- C6 counterexample: the source checks the two fault signatures in two
independent `if` blocks (lines 462-471), so a marker-less body
containing both signatures reboots the gateway twice and sends two
notifications - not the "exactly one reboot sequence and exactly one
notification" the claim states for every response containing a
recognized signature. -/
theorem c6_double_reboot_counterexample :
    get_meter_reading (Transport.body bothFaultsResp) =
      some ⟨false, 0,
        [Ev.gwOff, Ev.sleepSec 5, Ev.gwOn, Ev.sleepSec 60,
         Ev.mail EvMode.REBOOT_GATEWAY_TIMEOUT,
         Ev.gwOff, Ev.sleepSec 5, Ev.gwOn, Ev.sleepSec 60,
         Ev.mail EvMode.REBOOT_GATEWAY_UNAVAILABLE]⟩ ∧
    ((reboot_gateway ++ [Ev.mail EvMode.REBOOT_GATEWAY_TIMEOUT] ++
        (reboot_gateway ++ [Ev.mail EvMode.REBOOT_GATEWAY_UNAVAILABLE])).count
      Ev.gwOff = 2) := by
  constructor
  · rw [get_meter_reading, if_neg (by decide), if_pos (by decide), if_pos (by decide)]
    rfl
  · decide

/-- C6 as amended: one reboot sequence (gateway off, 5 s wait, gateway
on, 60 s wait) and one matching notification are performed per
recognized signature present; in particular a marker-less response
containing exactly one of the two signatures triggers exactly one
reboot sequence and exactly one notification before the failure
return. -/
theorem c6_single_fault_single_reboot (buf : List Char)
    (hnd : containsSub demandMarker buf = false) :
    (containsSub timeoutSig buf = true → containsSub unavailableSig buf = false →
      get_meter_reading (Transport.body buf) =
        some ⟨false, 0, reboot_gateway ++ [Ev.mail EvMode.REBOOT_GATEWAY_TIMEOUT]⟩) ∧
    (containsSub unavailableSig buf = true → containsSub timeoutSig buf = false →
      get_meter_reading (Transport.body buf) =
        some ⟨false, 0, reboot_gateway ++ [Ev.mail EvMode.REBOOT_GATEWAY_UNAVAILABLE]⟩) := by
  constructor
  · intro ht hu
    rw [get_meter_reading, if_neg (by simp [hnd]), if_pos ht, if_neg (by simp [hu])]
    simp
  · intro hu ht
    rw [get_meter_reading, if_neg (by simp [hnd]), if_neg (by simp [ht]), if_pos hu]
    simp

/-- Witness for C6 (amended): two single-signature bodies, each giving
exactly one reboot sequence and one matching notification. -/
theorem c6_single_fault_single_reboot_witness :
    get_meter_reading (Transport.body timeoutResp) =
      some ⟨false, 0, reboot_gateway ++ [Ev.mail EvMode.REBOOT_GATEWAY_TIMEOUT]⟩ ∧
    get_meter_reading (Transport.body unavailableResp) =
      some ⟨false, 0, reboot_gateway ++ [Ev.mail EvMode.REBOOT_GATEWAY_UNAVAILABLE]⟩ :=
  ⟨(c6_single_fault_single_reboot timeoutResp (by decide)).1 (by decide) (by decide),
   (c6_single_fault_single_reboot unavailableResp (by decide)).2 (by decide) (by decide)⟩

/-- C9 counterexample: at hour 23 (inside the default window) a failed
actuation runs `continue` (line 1011), skipping the
`sleep(SLEEP_SECONDS)` of line 1074 - the next iteration's work begins
with no inter-cycle sleep, contradicting the claim that the controller
sleeps between every two consecutive iterations including those
abandoned by an actuation failure. -/
theorem c9_no_sleep_counterexample :
    (cycle defaultConfig EvMode.OFF 23 ⟨true, 0, []⟩ false).mails =
      [EvMode.ON_VC_ERROR] ∧
    (cycle defaultConfig EvMode.OFF 23 ⟨true, 0, []⟩ false).slept = false := by
  norm_num [cycle, inValueWindow, defaultConfig, switch_charger, EvMode.code, notifs]

/-- C9 as amended: the inter-cycle `sleep(SLEEP_SECONDS)` is skipped
exactly in the iterations abandoned by a failed actuation (`continue`
on lines 1011, 1044, 1068); every other iteration - including those
abandoned by a failed meter read - ends with the sleep. -/
theorem c9_sleep_exactly_unless_actuation_fails (cfg : Config) (mode : EvMode)
    (hour : Int) (success : Bool) (d : ℚ) (ev : List Ev) (actOk : Bool) :
    (cycle cfg mode hour ⟨success, d, ev⟩ actOk).slept = false ↔
      (actOk = false ∧ (inValueWindow cfg hour = true ∨ success = true)) := by
  cases actOk <;> cases success <;>
    by_cases hw : inValueWindow cfg hour <;>
      by_cases hc : (mode = EvMode.ON ∧ d ≤ cfg.switching_threshold) ∨
        (mode = EvMode.OFF ∧ d + cfg.ev_charging_current ≤ cfg.switching_threshold) <;>
      simp [cycle, hw, hc, switch_charger, EvMode.code]

/-- C7: For every successfully parsed response whose multiplier and
divisor values are 1 (so scaling is neutral), a raw demand token whose
third character - the hex digit the source tests as
`demand_string[2]` - is `'f'` yields the export-corrected demand
`(0xFFFFFFFF - raw) * -1`, and any other token yields the raw value
unchanged. -/
theorem c7_export_correction (buf dTok mTok vTok : List Char)
    (hD : extract_token demandMarker buf = some dTok)
    (hM : extract_token multiplierMarker buf = some mTok)
    (hV : extract_token divisorMarker buf = some vTok)
    (hm1 : atofQ mTok = 1) (hv1 : atofQ vTok = 1) :
    (dTok[2]? = some 'f' →
      get_meter_reading (Transport.body buf) =
        some ⟨true, ((4294967295 : ℚ) - atofQ dTok) * (-1), []⟩) ∧
    (dTok[2]? ≠ some 'f' →
      get_meter_reading (Transport.body buf) = some ⟨true, atofQ dTok, []⟩) := by
  have hc : containsSub demandMarker buf = true := extract_token_contains hD
  rw [get_meter_reading, if_pos hc, hD, hM, hV]
  dsimp only
  rw [hm1, hv1]
  constructor
  · intro hf
    simp [demand_correct, hf, atofQ_ffff]
  · intro hf
    simp [demand_correct, hf]

/-- Witness for C7: token `0xfffffe8b` (raw 4294966923) has `'f'` as its
third character and parses to the corrected demand -372 kW·units. -/
theorem c7_export_correction_witness :
    get_meter_reading (Transport.body exportResp) = some ⟨true, -372, []⟩ := by
  have h := (c7_export_correction exportResp "0xfffffe8b".toList "0x00000001".toList
    "0x00000001".toList (by decide) (by decide) (by decide)
    (by simp +decide [atofQ, parseHex, hexVal])
    (by simp +decide [atofQ, parseHex, hexVal])).1 (by decide)
  have hd : atofQ "0xfffffe8b".toList = 4294966923 := by
    simp +decide [atofQ, parseHex, hexVal]
  rw [h, hd]
  norm_num

/-- C8: For every successfully parsed response whose demand token needs
no export correction, the stored demand is raw * multiplier / divisor,
where a multiplier of 0 and a divisor of 0 are each replaced by 1
before the computation. -/
theorem c8_multiplier_divisor_scaling (buf dTok mTok vTok : List Char)
    (hD : extract_token demandMarker buf = some dTok)
    (hM : extract_token multiplierMarker buf = some mTok)
    (hV : extract_token divisorMarker buf = some vTok)
    (hraw : dTok[2]? ≠ some 'f') :
    get_meter_reading (Transport.body buf) =
      some ⟨true,
        atofQ dTok * (if atofQ mTok = 0 then 1 else atofQ mTok) /
          (if atofQ vTok = 0 then 1 else atofQ vTok), []⟩ := by
  have hc : containsSub demandMarker buf = true := extract_token_contains hD
  rw [get_meter_reading, if_pos hc, hD, hM, hV]
  dsimp only
  simp [demand_correct, hraw]

/-- Witness for C8, the source's own worked example: raw 5944 (token
`0x001738`), multiplier 0 (treated as 1), divisor 1000 (`0x3e8`) give
a stored demand of 5.944 kW. -/
theorem c8_multiplier_divisor_scaling_witness :
    get_meter_reading (Transport.body scaledResp) = some ⟨true, 5.944, []⟩ := by
  have h := c8_multiplier_divisor_scaling scaledResp "0x001738".toList
    "0x00000000".toList "0x000003e8".toList (by decide) (by decide) (by decide)
    (by decide)
  have h1 : atofQ "0x001738".toList = 5944 := by
    simp +decide [atofQ, parseHex, hexVal]
  have h2 : atofQ "0x00000000".toList = 0 := by
    simp +decide [atofQ, parseHex, hexVal]
  have h3 : atofQ "0x000003e8".toList = 1000 := by
    simp +decide [atofQ, parseHex, hexVal]
  rw [h, h1, h2, h3]
  norm_num

/-- C10: Parsing a response body has a defined outcome exactly when the
precondition holds - a body containing `<Demand>` must also yield all
three tokens, i.e. the `'<'` delimiter after the demand value and the
`<Multiplier>` and `<Divisor>` markers each followed by `'<'` must be
present; with `<Demand>` present and `<Multiplier>` or `<Divisor>`
absent no error branch is reached and the source's
`strstr(...) + strlen(...)` on NULL has no defined result (`none`). -/
theorem c10_parse_totality (buf : List Char) :
    (get_meter_reading (Transport.body buf)).isSome = true ↔
      (containsSub demandMarker buf = true →
        (extract_token demandMarker buf).isSome = true ∧
        (extract_token multiplierMarker buf).isSome = true ∧
        (extract_token divisorMarker buf).isSome = true) := by
  rw [get_meter_reading]
  by_cases hc : containsSub demandMarker buf
  · rw [if_pos hc]
    rcases hD : extract_token demandMarker buf with _ | dTok <;>
      rcases hM : extract_token multiplierMarker buf with _ | mTok <;>
        rcases hV : extract_token divisorMarker buf with _ | vTok <;>
          simp [hc]
  · rw [if_neg hc]
    simp [hc]

/-- Witness for C10: `truncatedResp` has the `<Demand>` marker but no
`<Multiplier>` marker, and its parse indeed has no defined result. -/
theorem c10_parse_totality_witness :
    (get_meter_reading (Transport.body truncatedResp)).isSome = false ∧
    containsSub demandMarker truncatedResp = true := by
  refine ⟨?_, by decide⟩
  have h := c10_parse_totality truncatedResp
  by_cases hs : (get_meter_reading (Transport.body truncatedResp)).isSome = true
  · have := (h.mp hs (by decide)).2.1
    rw [show extract_token multiplierMarker truncatedResp = none from by decide] at this
    simp at this
  · simpa using hs
